import Mathlib

/-!
Shallow embedding of the `emerald-railroads` Django backend: the data model
(`railway/models.py`), the serializer-level operations (`railway/serializers.py`),
the view-level operations (`railway/views.py`) and the permission class
(`railway/permissions.py`).

Database rows become Lean structures, foreign keys become stored ids, the
database state becomes a `DB` structure of row lists with an auto-increment
counter, and fallible operations return `Except ApiError DB`.  Django's
`transaction.atomic` becomes `transaction_atomic`, which restores the initial
state when the body raises.  `DateTimeField` values are modelled as `Int`
timestamps.
-/

namespace Railway

/-- A `TrainType` row (`models.py`): just a primary key and a name. -/
structure TrainType where
  id : Nat
  name : String
  deriving DecidableEq

/-- A `Train` row (`models.py`): capacity layout plus a foreign key to
`TrainType` declared with `on_delete=models.PROTECT`.  `cargo_num` and
`places_in_cargo` are plain `IntegerField`s, so they are modelled as `Int`. -/
structure Train where
  id : Nat
  name : String
  cargo_num : Int
  places_in_cargo : Int
  train_type : Nat
  deriving DecidableEq

/-- A `Station` row (`models.py`); coordinates are irrelevant to the claims. -/
structure Station where
  id : Nat
  name : String
  deriving DecidableEq

/-- A `Route` row (`models.py`): source and destination station ids plus a
distance. -/
structure Route where
  id : Nat
  source : Nat
  destination : Nat
  distance : Int
  deriving DecidableEq

/-- A `Journey` row (`models.py`): foreign keys to `Route` and `Train`, both
`on_delete=models.CASCADE`, and a departure/arrival time window.  The model
declares no `clean` method and no constraint on the two times. -/
structure Journey where
  id : Nat
  route : Nat
  train : Nat
  departure_time : Int
  arrival_time : Int
  deriving DecidableEq

/-- An `Order` row (`models.py`): owned by a user (`on_delete=models.CASCADE`). -/
structure Order where
  id : Nat
  user : Nat
  deriving DecidableEq

/-- A `Ticket` row (`models.py`): `cargo` and `seat` are `IntegerField`s,
`journey` and `order` are cascading foreign keys, and
`Meta.unique_together = ("cargo", "seat", "journey")`. -/
structure Ticket where
  id : Nat
  cargo : Int
  seat : Int
  journey : Nat
  order : Nat
  deriving DecidableEq

/-- The database state: one list per table plus an auto-increment primary-key
counter shared by all tables. -/
structure DB where
  train_types : List TrainType
  trains : List Train
  stations : List Station
  routes : List Route
  journeys : List Journey
  orders : List Order
  tickets : List Ticket
  next_id : Nat
  deriving DecidableEq

/-- The errors the modelled operations can raise: the two keyed validation
errors of `Ticket.validate_seat`, the database `unique_together` violation,
a missing foreign-key target, and `ProtectedError` from
`on_delete=models.PROTECT`. -/
inductive ApiError where
  | seatRange (bound : Int)
  | cargoRange (bound : Int)
  | uniqueTogether
  | missingRelated
  | protectedRelation
  deriving DecidableEq

/-- Resolve a `Train` foreign key. -/
def DB.findTrain (db : DB) (i : Nat) : Option Train :=
  db.trains.find? (fun t => t.id == i)

/-- Resolve a `Journey` foreign key. -/
def DB.findJourney (db : DB) (i : Nat) : Option Journey :=
  db.journeys.find? (fun j => j.id == i)

/-- Resolve a `Route` foreign key. -/
def DB.findRoute (db : DB) (i : Nat) : Option Route :=
  db.routes.find? (fun r => r.id == i)

/-- `Ticket.validate_seat` (`models.py`): raises `error_to_raise` with a
`seat`-keyed message when `seat` is outside `[1, places_in_cargo]`, otherwise
raises it with a `cargo`-keyed message when `cargo` is outside
`[1, cargo_num]`, otherwise returns.  The error class to raise is a parameter,
as in the source. -/
def Ticket.validate_seat {E : Type} (seat cargo places_in_cargo cargo_num : Int)
    (error_to_raise : ApiError → E) : Except E Unit :=
  if ¬ (1 ≤ seat ∧ seat ≤ places_in_cargo) then
    .error (error_to_raise (.seatRange places_in_cargo))
  else if ¬ (1 ≤ cargo ∧ cargo ≤ cargo_num) then
    .error (error_to_raise (.cargoRange cargo_num))
  else
    .ok ()

/-- `Ticket.clean` (`models.py`): runs `Ticket.validate_seat` on the ticket's
own fields against its journey's train's layout, raising
`rest_framework.exceptions.ValidationError`.  A dangling foreign key would
fail attribute resolution, modelled as `missingRelated`. -/
def Ticket.clean (db : DB) (t : Ticket) : Except ApiError Unit :=
  match db.findJourney t.journey with
  | none => .error .missingRelated
  | some j =>
    match db.findTrain j.train with
    | none => .error .missingRelated
    | some train =>
      Ticket.validate_seat t.seat t.cargo
        train.places_in_cargo train.cargo_num (fun e => e)

/-- The validated payload of one nested ticket in an order-creation request:
`TicketSerializer.Meta.fields = ("cargo", "seat", "journey")`. -/
structure TicketInput where
  cargo : Int
  seat : Int
  journey : Nat
  deriving DecidableEq

/-- `TicketSerializer.validate` (`serializers.py`): runs `Ticket.validate_seat`
on the request attributes against the journey's train's layout, raising
`serializers.ValidationError`, and returns the attributes unchanged on
success.  The journey attribute was resolved by `PrimaryKeyRelatedField`;
a dangling id is modelled as `missingRelated`. -/
def TicketSerializer.validate (db : DB) (attrs : TicketInput) :
    Except ApiError TicketInput :=
  match db.findJourney attrs.journey with
  | none => .error .missingRelated
  | some j =>
    match db.findTrain j.train with
    | none => .error .missingRelated
    | some train =>
      match Ticket.validate_seat attrs.seat attrs.cargo
          train.places_in_cargo train.cargo_num (fun e => e) with
      | .error e => .error e
      | .ok _ => .ok attrs

/-- Two tickets collide on the `unique_together = ("cargo", "seat", "journey")`
columns. -/
def sameTriple (a b : Ticket) : Prop :=
  a.cargo = b.cargo ∧ a.seat = b.seat ∧ a.journey = b.journey

instance : DecidableRel sameTriple := fun a b => by
  unfold sameTriple; infer_instance

/-- The `unique_together` invariant: no two ticket rows at distinct positions
share their `(cargo, seat, journey)` columns. -/
def NoDoubleBooking (l : List Ticket) : Prop :=
  l.Pairwise (fun a b => ¬ sameTriple a b)

instance (l : List Ticket) : Decidable (NoDoubleBooking l) := by
  unfold NoDoubleBooking; infer_instance

/-- `Ticket.objects.create(order=order, **ticket_data)` inside
`OrderSerializer.create`: constructs the row, runs `Ticket.save` which first
calls `self.clean()` (the range check) and then inserts, at which point the
database enforces `unique_together`. -/
def Ticket.create (db : DB) (order_id : Nat) (td : TicketInput) :
    Except ApiError DB :=
  let t : Ticket :=
    { id := db.next_id, cargo := td.cargo, seat := td.seat,
      journey := td.journey, order := order_id }
  match Ticket.clean db t with
  | .error e => .error e
  | .ok _ =>
    if db.tickets.any (fun u =>
        u.cargo == t.cargo && u.seat == t.seat && u.journey == t.journey) then
      .error .uniqueTogether
    else
      .ok { db with tickets := t :: db.tickets, next_id := db.next_id + 1 }

/-- The `for ticket_data in tickets_data` loop of `OrderSerializer.create`:
creates each nested ticket in turn, stopping at the first raised error. -/
def createTickets (order_id : Nat) : DB → List TicketInput → Except ApiError DB
  | db, [] => .ok db
  | db, td :: rest =>
    match Ticket.create db order_id td with
    | .error e => .error e
    | .ok db1 => createTickets order_id db1 rest

/-- The body of `OrderSerializer.create` (`serializers.py`): creates the
`Order` row for the given user, then each nested ticket.  The `user` value is
injected by `OrderViewSet.perform_create` via `serializer.save(user=...)`;
the serializer's own fields are `("id", "created_at", "tickets")`, so the
payload carries only the nested tickets. -/
def OrderSerializer.create (db : DB) (user : Nat)
    (tickets_data : List TicketInput) : Except ApiError DB :=
  let order : Order := { id := db.next_id, user := user }
  let db1 : DB :=
    { db with orders := order :: db.orders, next_id := db.next_id + 1 }
  createTickets order.id db1 tickets_data

/-- `with transaction.atomic():` — run the body; if it raises, roll the state
back to the snapshot at entry and surface the error. -/
def transaction_atomic (db : DB) (body : DB → Except ApiError DB) :
    DB × Option ApiError :=
  match body db with
  | .ok db1 => (db1, none)
  | .error e => (db, some e)

/-- `OrderViewSet.perform_create` (`views.py`): saves the order serializer
with `user=self.request.user`; the whole of `OrderSerializer.create` runs
inside `transaction.atomic()`. -/
def OrderViewSet.perform_create (db : DB) (request_user : Nat)
    (tickets_data : List TicketInput) : DB × Option ApiError :=
  transaction_atomic db (fun s => OrderSerializer.create s request_user tickets_data)

/-- `Count("tickets")` for one journey: the number of ticket rows whose
`journey` foreign key is this journey. -/
def DB.ticketCountFor (db : DB) (journey_id : Nat) : Nat :=
  (db.tickets.filter (fun t => t.journey == journey_id)).length

/-- One row of the annotated journey queryset: the journey plus the computed
`available_tickets` column. -/
structure AnnotatedJourney where
  journey : Journey
  available_tickets : Int
  deriving DecidableEq

/-- The `annotate` step of `JourneyViewSet.get_queryset` (`views.py`), applied
for the `list` and `retrieve` actions:
`available_tickets = F("train__cargo_num") * F("train__places_in_cargo") - Count("tickets")`,
computed per journey at read time from the joined train row and the live
ticket rows (journeys with a dangling train join produce no row). -/
def JourneyViewSet.annotate_available (db : DB) : List AnnotatedJourney :=
  db.journeys.filterMap (fun j =>
    (db.findTrain j.train).map (fun train =>
      { journey := j,
        available_tickets :=
          train.cargo_num * train.places_in_cargo
            - ((db.tickets.filter (fun t => t.journey == j.id)).length : Int) }))

/-- `OrderViewSet.get_queryset` (`views.py`):
`self.queryset.filter(user=self.request.user)`. -/
def OrderViewSet.get_queryset (db : DB) (request_user : Nat) : List Order :=
  db.orders.filter (fun o => o.user == request_user)

/-- Journey creation through `JourneyViewSet` (`views.py` default `create` with
`JourneySerializer`): the serializer's `PrimaryKeyRelatedField`s only require
the referenced route and train to exist; neither the serializer nor the
`Journey` model checks the ordering of `departure_time` and `arrival_time`. -/
def Journey.create (db : DB) (route train : Nat)
    (departure_time arrival_time : Int) : Except ApiError DB :=
  if (db.findRoute route).isSome && (db.findTrain train).isSome then
    .ok { db with
      journeys :=
        { id := db.next_id, route := route, train := train,
          departure_time := departure_time,
          arrival_time := arrival_time } :: db.journeys,
      next_id := db.next_id + 1 }
  else
    .error .missingRelated

/-- Deleting a `Train` row: `Journey.train` is declared
`on_delete=models.CASCADE`, so the journeys of the train are deleted with it,
and `Ticket.journey` is also `CASCADE`, so their tickets go too.  Nothing
protects a `Train` from deletion. -/
def Train.delete (db : DB) (train_id : Nat) : Except ApiError DB :=
  let removed := db.journeys.filter (fun j => j.train == train_id)
  .ok { db with
    trains := db.trains.filter (fun t => t.id != train_id),
    journeys := db.journeys.filter (fun j => j.train != train_id),
    tickets := db.tickets.filter (fun t =>
      removed.all (fun j => j.id != t.journey)) }

/-- Deleting a `TrainType` row: `Train.train_type` is declared
`on_delete=models.PROTECT`, so the delete raises `ProtectedError` while any
`Train` row references the type; otherwise the row is removed. -/
def TrainType.delete (db : DB) (tt_id : Nat) : Except ApiError DB :=
  if db.trains.any (fun t => t.train_type == tt_id) then
    .error .protectedRelation
  else
    .ok { db with train_types := db.train_types.filter (fun t => t.id != tt_id) }

/-- `SAFE_METHODS` from `rest_framework.permissions`. -/
def SAFE_METHODS : List String := ["GET", "HEAD", "OPTIONS"]

/-- The request's user as the permission check sees it.  In Django the
`request.user` object is always present (an `AnonymousUser` when no one is
logged in, with `is_authenticated = False` and `is_staff = False`), so the
`request.user and ...` truthiness test in the source is always passed. -/
structure ReqUser where
  is_authenticated : Bool
  is_staff : Bool
  deriving DecidableEq

/-- `AllowAnyListOnlyUserReadOnlyAdminAll.has_permission` (`permissions.py`):
`view.action == "list" or (request.user and request.user.is_authenticated and
request.method in SAFE_METHODS) or request.user.is_staff`. -/
def AllowAnyListOnlyUserReadOnlyAdminAll.has_permission
    (action : String) (method : String) (user : ReqUser) : Bool :=
  action == "list"
    || (user.is_authenticated && SAFE_METHODS.contains method)
    || user.is_staff

/-- States reachable from a ticket-free database through the order-creation
endpoint (`OrderViewSet.perform_create`), the only operation of the API that
creates ticket rows. -/
inductive ReachableByOrders : DB → Prop where
  | init (db : DB) : db.tickets = [] → ReachableByOrders db
  | step (db : DB) (u : Nat) (tds : List TicketInput) :
      ReachableByOrders db →
      ReachableByOrders (OrderViewSet.perform_create db u tds).1

/-- A small concrete database shared by the witnesses: one train type, one
train with `cargo_num = 2` and `places_in_cargo = 3`, one route between two
stations, one journey (id 6) on that train, no orders and no tickets. -/
def dbDemo : DB :=
  { train_types := [{ id := 1, name := "Express" }],
    trains :=
      [{ id := 2, name := "Flyer", cargo_num := 2, places_in_cargo := 3,
         train_type := 1 }],
    stations := [{ id := 3, name := "Dublin" }, { id := 4, name := "Kilkenny" }],
    routes := [{ id := 5, source := 3, destination := 4, distance := 100 }],
    journeys :=
      [{ id := 6, route := 5, train := 2, departure_time := 0,
         arrival_time := 10 }],
    orders := [],
    tickets := [],
    next_id := 7 }

/-- Claim C2: `Ticket.validate_seat` raises if and only if `seat` lies outside
`[1, places_in_cargo]` or `cargo` lies outside `[1, cargo_num]`; when both
values are inside their ranges it returns without raising. -/
theorem validate_seat_raises_iff {E : Type} (seat cargo places_in_cargo cargo_num : Int)
    (error_to_raise : ApiError → E) :
    ((∃ e, Ticket.validate_seat seat cargo places_in_cargo cargo_num error_to_raise
        = .error e)
      ↔ (¬ (1 ≤ seat ∧ seat ≤ places_in_cargo) ∨ ¬ (1 ≤ cargo ∧ cargo ≤ cargo_num)))
  ∧ ((Ticket.validate_seat seat cargo places_in_cargo cargo_num error_to_raise
        = .ok ())
      ↔ ((1 ≤ seat ∧ seat ≤ places_in_cargo) ∧ (1 ≤ cargo ∧ cargo ≤ cargo_num))) := by
  unfold Ticket.validate_seat
  by_cases h1 : 1 ≤ seat ∧ seat ≤ places_in_cargo <;>
    by_cases h2 : 1 ≤ cargo ∧ cargo ≤ cargo_num <;>
    simp [h1, h2]

/-- Claim C6: the model-layer check `Ticket.clean` and the serializer-layer
check `TicketSerializer.validate` agree on every `(seat, cargo, journey)`
input over every database: both resolve the journey's train and run the same
range check, so the results coincide (the serializer additionally returns the
attributes on success). -/
theorem clean_validate_equivalent (db : DB) (t : Ticket) :
    Ticket.clean db t =
      (TicketSerializer.validate db
          { cargo := t.cargo, seat := t.seat, journey := t.journey }).map
        (fun _ => ()) := by
  unfold Ticket.clean TicketSerializer.validate
  cases hj : db.findJourney t.journey with
  | none => simp [hj, Except.map]
  | some j =>
    cases ht : db.findTrain j.train with
    | none => simp [hj, ht, Except.map]
    | some train =>
      cases hv : Ticket.validate_seat t.seat t.cargo
          train.places_in_cargo train.cargo_num (fun e => e) with
      | error e => simp [hj, ht, hv, Except.map]
      | ok u => simp [hj, ht, hv, Except.map]

/-- Claim C8: the permission rule of
`AllowAnyListOnlyUserReadOnlyAdminAll.has_permission`: anonymous users
(not authenticated, not staff) are granted exactly the `list` action — in
particular `retrieve` and `create` are denied; authenticated non-staff users
are granted exactly the safe methods (plus the `list` action, which is itself
a safe request); staff users are granted everything. -/
theorem permission_role_matrix :
    (∀ m : String,
        AllowAnyListOnlyUserReadOnlyAdminAll.has_permission "list" m
            { is_authenticated := false, is_staff := false } = true
      ∧ AllowAnyListOnlyUserReadOnlyAdminAll.has_permission "retrieve" m
            { is_authenticated := false, is_staff := false } = false
      ∧ AllowAnyListOnlyUserReadOnlyAdminAll.has_permission "create" m
            { is_authenticated := false, is_staff := false } = false)
  ∧ (∀ a m : String,
        AllowAnyListOnlyUserReadOnlyAdminAll.has_permission a m
            { is_authenticated := false, is_staff := false } = (a == "list"))
  ∧ (∀ a m : String,
        AllowAnyListOnlyUserReadOnlyAdminAll.has_permission a m
            { is_authenticated := true, is_staff := false }
          = (a == "list" || SAFE_METHODS.contains m))
  ∧ (∀ (a m : String) (auth : Bool),
        AllowAnyListOnlyUserReadOnlyAdminAll.has_permission a m
            { is_authenticated := auth, is_staff := true } = true) := by
  refine ⟨fun m => ⟨?_, ?_, ?_⟩, fun a m => ?_, fun a m => ?_, fun a m auth => ?_⟩ <;>
    simp [AllowAnyListOnlyUserReadOnlyAdminAll.has_permission]

/-- Claim C9: the invariant `departure_time < arrival_time` is not enforced:
creating a journey on the demo database with `departure_time = 10` and
`arrival_time = 5` succeeds, and the stored journey carries exactly those
out-of-order times. -/
theorem journey_time_order_unenforced :
    ¬ ((10 : Int) < 5)
  ∧ (Journey.create dbDemo 5 2 10 5).isOk = true
  ∧ (Journey.create dbDemo 5 2 10 5).toOption.map
      (fun s => s.journeys.map (fun j => (j.departure_time, j.arrival_time)))
      = some [((10 : Int), (5 : Int)), ((0 : Int), (10 : Int))] := by
  refine ⟨by decide, by decide, by decide⟩

/-- Inversion of a successful `Ticket.create`: the new state prepends exactly
one ticket row built from the payload, keeps every other table and in
particular the order table unchanged, and the uniqueness scan over the old
ticket rows was negative. -/
theorem Ticket.create_ok_inv (db : DB) (order_id : Nat) (td : TicketInput)
    (db' : DB) (h : Ticket.create db order_id td = .ok db') :
    db'.tickets =
        { id := db.next_id, cargo := td.cargo, seat := td.seat,
          journey := td.journey, order := order_id } :: db.tickets
  ∧ db'.orders = db.orders
  ∧ db.tickets.any (fun u =>
        u.cargo == td.cargo && u.seat == td.seat && u.journey == td.journey)
      = false := by
  unfold Ticket.create at h
  dsimp only [] at h
  cases hc : Ticket.clean db
      { id := db.next_id, cargo := td.cargo, seat := td.seat,
        journey := td.journey, order := order_id } with
  | error e => rw [hc] at h; cases h
  | ok u =>
    rw [hc] at h
    by_cases ha : db.tickets.any (fun u =>
        u.cargo == td.cargo && u.seat == td.seat && u.journey == td.journey)
        = true
    · rw [if_pos ha] at h; cases h
    · rw [if_neg ha] at h
      cases h
      exact ⟨rfl, rfl, Bool.eq_false_iff.mpr ha⟩

/-- A successful run of the ticket-creation loop leaves the order table
unchanged. -/
theorem createTickets_orders (order_id : Nat) (tds : List TicketInput) :
    ∀ s s' : DB, createTickets order_id s tds = .ok s' → s'.orders = s.orders := by
  induction tds with
  | nil => intro s s' h; cases h; rfl
  | cons td rest ih =>
    intro s s' h
    unfold createTickets at h
    cases hc : Ticket.create s order_id td with
    | error e => rw [hc] at h; cases h
    | ok s1 =>
      rw [hc] at h
      have h1 := (Ticket.create_ok_inv s order_id td s1 hc).2.1
      rw [ih s1 s' h, h1]

/-- Claim C3: order creation is atomic.  Whenever
`OrderViewSet.perform_create` surfaces an error — a nested ticket failing the
range validation or the `(cargo, seat, journey)` uniqueness constraint — the
resulting state is exactly the initial state: no `Order` row and no `Ticket`
row is persisted. -/
theorem order_create_atomic (db : DB) (u : Nat) (tds : List TicketInput)
    (e : ApiError) (h : (OrderViewSet.perform_create db u tds).2 = some e) :
    (OrderViewSet.perform_create db u tds).1 = db
  ∧ (OrderViewSet.perform_create db u tds).1.orders = db.orders
  ∧ (OrderViewSet.perform_create db u tds).1.tickets = db.tickets := by
  unfold OrderViewSet.perform_create transaction_atomic at *
  dsimp only [] at h ⊢
  cases hb : OrderSerializer.create db u tds with
  | ok db1 => rw [hb] at h; simp at h
  | error e1 => exact ⟨rfl, rfl, rfl⟩

/-- Witness for C3: on the demo database, an order with one nested ticket
whose seat 0 is out of range fails with the seat-range error and leaves the
state exactly as it was. -/
theorem order_create_atomic_witness :
    (OrderViewSet.perform_create dbDemo 8
        [{ cargo := 1, seat := 0, journey := 6 }]).1 = dbDemo
  ∧ (OrderViewSet.perform_create dbDemo 8
        [{ cargo := 1, seat := 0, journey := 6 }]).1.orders = dbDemo.orders
  ∧ (OrderViewSet.perform_create dbDemo 8
        [{ cargo := 1, seat := 0, journey := 6 }]).1.tickets = dbDemo.tickets :=
  order_create_atomic dbDemo 8 [{ cargo := 1, seat := 0, journey := 6 }]
    (.seatRange 3) (by decide)

/-- Claim C10: order access is isolated per user.  The order queryset returns
only orders owned by the requesting user, and a successful order creation
stores the new order under the requesting user — the payload carries only the
nested tickets, so the owner cannot be chosen by the client. -/
theorem order_user_isolation (db : DB) (u : Nat) :
    (∀ o ∈ OrderViewSet.get_queryset db u, o.user = u)
  ∧ (∀ (tds : List TicketInput) (db1 : DB),
      OrderViewSet.perform_create db u tds = (db1, none) →
      db1.orders = ({ id := db.next_id, user := u } : Order) :: db.orders) := by
  constructor
  · intro o ho
    unfold OrderViewSet.get_queryset at ho
    rw [List.mem_filter] at ho
    exact eq_of_beq ho.2
  · intro tds db1 h
    unfold OrderViewSet.perform_create transaction_atomic at h
    dsimp only [] at h
    cases hb : OrderSerializer.create db u tds with
    | error e => rw [hb] at h; simp at h
    | ok db2 =>
      rw [hb] at h
      have h1 : db2 = db1 := congrArg Prod.fst h
      subst h1
      unfold OrderSerializer.create at hb
      dsimp only [] at hb
      exact createTickets_orders db.next_id tds _ db2 hb

/-- Witness for C10: on the demo database extended with two orders, the
queryset for user 8 contains only user 8's order, and creating an order with
one valid ticket as user 8 stores it under user 8. -/
theorem order_user_isolation_witness :
    ({ id := 20, user := 8 } : Order).user = 8
  ∧ ((OrderViewSet.perform_create dbDemo 8
        [{ cargo := 1, seat := 1, journey := 6 }]).1).orders
      = ({ id := dbDemo.next_id, user := 8 } : Order) :: dbDemo.orders :=
  ⟨(order_user_isolation
      { dbDemo with orders := [{ id := 20, user := 8 }, { id := 21, user := 9 }] }
      8).1 { id := 20, user := 8 } (by decide),
   (order_user_isolation dbDemo 8).2 [{ cargo := 1, seat := 1, journey := 6 }]
      (OrderViewSet.perform_create dbDemo 8
        [{ cargo := 1, seat := 1, journey := 6 }]).1 (by decide)⟩

/-- A successful `Ticket.create` preserves the `unique_together` invariant:
the insert only happens after the scan over the existing rows found no
`(cargo, seat, journey)` collision. -/
theorem Ticket.create_preserves_unique (db : DB) (order_id : Nat)
    (td : TicketInput) (db' : DB) (h : Ticket.create db order_id td = .ok db')
    (hnd : NoDoubleBooking db.tickets) : NoDoubleBooking db'.tickets := by
  obtain ⟨hts, -, hany⟩ := Ticket.create_ok_inv db order_id td db' h
  rw [hts]
  unfold NoDoubleBooking at *
  rw [List.pairwise_cons]
  refine ⟨?_, hnd⟩
  intro b hb hsame
  simp only [sameTriple] at hsame
  have hmem : db.tickets.any (fun u =>
      u.cargo == td.cargo && u.seat == td.seat && u.journey == td.journey)
      = true := by
    rw [List.any_eq_true]
    refine ⟨b, hb, ?_⟩
    simp [hsame.1.symm, hsame.2.1.symm, hsame.2.2.symm]
  rw [hany] at hmem
  cases hmem

/-- A successful run of the ticket-creation loop preserves the
`unique_together` invariant. -/
theorem createTickets_preserves_unique (order_id : Nat) (tds : List TicketInput) :
    ∀ s s' : DB, createTickets order_id s tds = .ok s' →
      NoDoubleBooking s.tickets → NoDoubleBooking s'.tickets := by
  induction tds with
  | nil => intro s s' h hnd; cases h; exact hnd
  | cons td rest ih =>
    intro s s' h hnd
    unfold createTickets at h
    cases hc : Ticket.create s order_id td with
    | error e => rw [hc] at h; cases h
    | ok s1 =>
      rw [hc] at h
      exact ih s1 s' h (Ticket.create_preserves_unique s order_id td s1 hc hnd)

/-- Claim C1: the `(cargo, seat, journey)` uniqueness constraint is preserved
by every operation that creates tickets: any state reachable from a
ticket-free database through order creation contains no two distinct ticket
rows with equal cargo, seat and journey. -/
theorem reachable_no_double_booking (db : DB) (h : ReachableByOrders db) :
    NoDoubleBooking db.tickets := by
  induction h with
  | init db0 h0 => rw [h0]; exact List.Pairwise.nil
  | step db0 u tds hr ih =>
    unfold OrderViewSet.perform_create transaction_atomic
    dsimp only []
    cases hb : OrderSerializer.create db0 u tds with
    | ok db1 =>
      show NoDoubleBooking db1.tickets
      unfold OrderSerializer.create at hb
      dsimp only [] at hb
      exact createTickets_preserves_unique db0.next_id tds _ db1 hb ih
    | error e => exact ih

/-- Witness for C1: the state after one successful order for seat 1, cargo 1
on journey 6 of the demo database satisfies the no-double-booking invariant. -/
theorem reachable_no_double_booking_witness :
    NoDoubleBooking ((OrderViewSet.perform_create dbDemo 8
        [{ cargo := 1, seat := 1, journey := 6 }]).1).tickets :=
  reachable_no_double_booking _
    (ReachableByOrders.step dbDemo 8 [{ cargo := 1, seat := 1, journey := 6 }]
      (ReachableByOrders.init dbDemo rfl))

/-- Claim C4: every annotated journey produced by the list/retrieve queryset
carries `available_tickets = train.cargo_num * train.places_in_cargo` minus
the count of ticket rows of that journey, the count being the read-time
aggregate `DB.ticketCountFor` over the live ticket table. -/
theorem available_tickets_formula (db : DB) (aj : AnnotatedJourney)
    (haj : aj ∈ JourneyViewSet.annotate_available db) (train : Train)
    (htr : db.findTrain aj.journey.train = some train) :
    aj.available_tickets =
      train.cargo_num * train.places_in_cargo
        - (db.ticketCountFor aj.journey.id : Int) := by
  unfold JourneyViewSet.annotate_available at haj
  rw [List.mem_filterMap] at haj
  obtain ⟨j, hj, hmap⟩ := haj
  cases hft : db.findTrain j.train with
  | none => rw [hft] at hmap; cases hmap
  | some tr0 =>
    rw [hft, Option.map_some'] at hmap
    injection hmap with hmap
    subst hmap
    rw [hft] at htr
    injection htr with htr
    subst htr
    rfl

/-- Witness for C4: on the demo database the sole annotated journey reports
`available_tickets = 6 = 2 * 3 - 0`. -/
theorem available_tickets_formula_witness :
    ({ journey :=
        { id := 6, route := 5, train := 2, departure_time := 0,
          arrival_time := 10 },
       available_tickets := 6 } : AnnotatedJourney).available_tickets
      = (2 : Int) * 3 - (dbDemo.ticketCountFor 6 : Int) :=
  available_tickets_formula dbDemo _ (by decide)
    { id := 2, name := "Flyer", cargo_num := 2, places_in_cargo := 3,
      train_type := 1 }
    (by decide)

/-- Counterexample for C7: on the demo database, train 2 is referenced by
journey 6, yet deleting train 2 succeeds and removes the train row (the
journeys cascade away with it) — `Journey.train` is `on_delete=CASCADE`, so
nothing protects a referenced `Train` from deletion. -/
theorem train_delete_not_protected :
    dbDemo.journeys.any (fun j => j.train == 2) = true
  ∧ (Train.delete dbDemo 2).isOk = true
  ∧ (Train.delete dbDemo 2).toOption.map (fun s => s.trains) = some [] := by
  refine ⟨by decide, by decide, by decide⟩

/-- Claim C7 (amended): it is `TrainType` deletion that is blocked while
`Train` rows reference the type — `Train.train_type` is declared
`on_delete=models.PROTECT`, so deleting a referenced `TrainType` raises
`ProtectedError` and leaves the state unchanged. -/
theorem train_type_delete_protected (db : DB) (tt_id : Nat)
    (h : db.trains.any (fun t => t.train_type == tt_id) = true) :
    transaction_atomic db (fun s => TrainType.delete s tt_id)
      = (db, some .protectedRelation) := by
  unfold transaction_atomic TrainType.delete
  dsimp only []
  rw [if_pos h]

/-- Witness for the amended C7: train type 1 of the demo database is
referenced by train 2, so deleting it fails and changes nothing. -/
theorem train_type_delete_protected_witness :
    transaction_atomic dbDemo (fun s => TrainType.delete s 1)
      = (dbDemo, some .protectedRelation) :=
  train_type_delete_protected dbDemo 1 (by decide)

/-- A degenerate database refuting C5 as literally stated: train 2 declares
`cargo_num = -1` and `places_in_cargo = 2` (nothing in the source forbids
non-positive `IntegerField` capacities), and journey 6 has no tickets, so
every per-ticket hypothesis holds vacuously while the ticket count 0 exceeds
`cargo_num * places_in_cargo = -2`. -/
def dbNegCapacity : DB :=
  { train_types := [{ id := 1, name := "Phantom" }],
    trains :=
      [{ id := 2, name := "Ghost", cargo_num := -1, places_in_cargo := 2,
         train_type := 1 }],
    stations := [{ id := 3, name := "A" }, { id := 4, name := "B" }],
    routes := [{ id := 5, source := 3, destination := 4, distance := 1 }],
    journeys :=
      [{ id := 6, route := 5, train := 2, departure_time := 0,
         arrival_time := 1 }],
    orders := [],
    tickets := [],
    next_id := 7 }

/-- Counterexample for C5: on `dbNegCapacity`, journey 6 exists, its train
resolves, all (zero) tickets of the journey pass the range check and the
uniqueness invariant holds, yet the ticket count is not at most
`cargo_num * places_in_cargo`. -/
theorem capacity_bound_counterexample :
    ({ id := 6, route := 5, train := 2, departure_time := 0,
       arrival_time := 1 } : Journey) ∈ dbNegCapacity.journeys
  ∧ dbNegCapacity.findTrain 2 =
      some { id := 2, name := "Ghost", cargo_num := -1, places_in_cargo := 2,
             train_type := 1 }
  ∧ (∀ t ∈ dbNegCapacity.tickets, t.journey = 6 →
        1 ≤ t.seat ∧ t.seat ≤ 2 ∧ 1 ≤ t.cargo ∧ t.cargo ≤ -1)
  ∧ NoDoubleBooking dbNegCapacity.tickets
  ∧ ¬ ((dbNegCapacity.ticketCountFor 6 : Int) ≤ (-1) * 2) := by
  refine ⟨by decide, by decide, by decide, by decide, by decide⟩

/-- Claim C5 (amended): for a journey whose train has nonnegative capacity
fields, if every ticket of the journey passes the per-ticket range check and
the `(cargo, seat, journey)` uniqueness invariant holds, then the number of
tickets on the journey is at most `cargo_num * places_in_cargo` — the
pigeonhole bound that prevents overselling. -/
theorem capacity_bound (db : DB) (j : Journey) (train : Train)
    (htr : db.findTrain j.train = some train)
    (hc : 0 ≤ train.cargo_num) (hp : 0 ≤ train.places_in_cargo)
    (hrange : ∀ t ∈ db.tickets, t.journey = j.id →
        1 ≤ t.seat ∧ t.seat ≤ train.places_in_cargo
          ∧ 1 ≤ t.cargo ∧ t.cargo ≤ train.cargo_num)
    (hnd : NoDoubleBooking db.tickets) :
    (db.ticketCountFor j.id : Int) ≤ train.cargo_num * train.places_in_cargo := by
  unfold DB.ticketCountFor
  set l := db.tickets.filter (fun t => t.journey == j.id) with hl
  have hlmem : ∀ t ∈ l, t.journey = j.id
      ∧ 1 ≤ t.seat ∧ t.seat ≤ train.places_in_cargo
      ∧ 1 ≤ t.cargo ∧ t.cargo ≤ train.cargo_num := by
    intro t ht
    rw [hl, List.mem_filter] at ht
    have hj : t.journey = j.id := by simpa using ht.2
    exact ⟨hj, hrange t ht.1 hj⟩
  have hpw : l.Pairwise (fun a b => ¬ sameTriple a b) :=
    List.Pairwise.sublist (List.filter_sublist _) hnd
  have hpairs : l.Pairwise (fun a b => (a.cargo, a.seat) ≠ (b.cargo, b.seat)) := by
    refine hpw.imp_of_mem ?_
    intro a b ha hb hne heq
    apply hne
    exact ⟨congrArg Prod.fst heq, congrArg Prod.snd heq,
      (hlmem a ha).1.trans (hlmem b hb).1.symm⟩
  have hmapnd : (l.map fun t => (t.cargo, t.seat)).Nodup :=
    List.pairwise_map.mpr hpairs
  have hsub : (l.map fun t => (t.cargo, t.seat)).toFinset ⊆
      Finset.Icc (1 : Int) train.cargo_num ×ˢ
        Finset.Icc (1 : Int) train.places_in_cargo := by
    intro x hx
    rw [List.mem_toFinset, List.mem_map] at hx
    obtain ⟨t, ht, rfl⟩ := hx
    obtain ⟨-, hs1, hs2, hc1, hc2⟩ := hlmem t ht
    rw [Finset.mem_product, Finset.mem_Icc, Finset.mem_Icc]
    exact ⟨⟨hc1, hc2⟩, ⟨hs1, hs2⟩⟩
  have hlen : l.length ≤
      (Finset.Icc (1 : Int) train.cargo_num ×ˢ
        Finset.Icc (1 : Int) train.places_in_cargo).card := by
    calc l.length = (l.map fun t => (t.cargo, t.seat)).length :=
          (List.length_map _ _).symm
      _ = (l.map fun t => (t.cargo, t.seat)).toFinset.card :=
          (List.toFinset_card_of_nodup hmapnd).symm
      _ ≤ _ := Finset.card_le_card hsub
  have hcard : (Finset.Icc (1 : Int) train.cargo_num ×ˢ
      Finset.Icc (1 : Int) train.places_in_cargo).card
      = train.cargo_num.toNat * train.places_in_cargo.toNat := by
    rw [Finset.card_product, Int.card_Icc, Int.card_Icc]
    simp
  calc (l.length : Int)
      ≤ ((train.cargo_num.toNat * train.places_in_cargo.toNat : Nat) : Int) := by
        exact_mod_cast hlen.trans (le_of_eq hcard)
    _ = train.cargo_num * train.places_in_cargo := by
        push_cast
        rw [Int.toNat_of_nonneg hc, Int.toNat_of_nonneg hp]

/-- Witness for the amended C5: the demo database extended with one booked
ticket on journey 6 satisfies every hypothesis, and its ticket count 1 is
within the capacity `2 * 3`. -/
theorem capacity_bound_witness :
    (({ dbDemo with
        orders := [{ id := 9, user := 8 }],
        tickets := [{ id := 10, cargo := 1, seat := 1, journey := 6, order := 9 }],
        next_id := 11 } : DB).ticketCountFor 6 : Int) ≤ 2 * 3 :=
  capacity_bound
    { dbDemo with
      orders := [{ id := 9, user := 8 }],
      tickets := [{ id := 10, cargo := 1, seat := 1, journey := 6, order := 9 }],
      next_id := 11 }
    { id := 6, route := 5, train := 2, departure_time := 0, arrival_time := 10 }
    { id := 2, name := "Flyer", cargo_num := 2, places_in_cargo := 3,
      train_type := 1 }
    (by decide) (by decide) (by decide) (by decide) (by decide)

end Railway
